import Mathlib

/-!
Verification development for the D3D11 backend of the Dawn WebGPU
implementation.  The definitions below are a shallow embedding of the code in
`src/dawn/native/d3d11` (BufferD3D11.cpp, TextureD3D11.cpp, SwapChainD3D11.cpp,
CommandRecordingContextD3D11.cpp, CommandBufferD3D11.cpp, QueueD3D11.cpp).
Machine integers are modelled as `Nat` with explicit bounds where overflow
matters; fallible native calls are modelled with `Except`; the native calls a
function issues are collected in an explicit trace list.
-/

namespace DawnD3D11

/-- Error taxonomy of the backend: DAWN_VALIDATION_ERROR, DAWN_OUT_OF_MEMORY_ERROR,
DAWN_UNIMPLEMENTED_ERROR, and internal/native failures. -/
inductive DawnError where
  | validation
  | outOfMemory
  | unimplemented
  | internalErr
deriving DecidableEq, Repr

/-- The wgpu::BufferUsage bits used by the D3D11 buffer code, one Bool per flag
(`kInternalStorageBuffer` and `kReadOnlyStorageBuffer` are Dawn-internal bits). -/
structure BufferUsage where
  mapRead : Bool
  mapWrite : Bool
  vertex : Bool
  index : Bool
  uniform : Bool
  storage : Bool
  indirect : Bool
  internalStorage : Bool
  readOnlyStorage : Bool
deriving DecidableEq, Repr

/-- IsGPUUsage from BufferD3D11.cpp: usage & (Vertex | Index | Uniform | Storage). -/
def isGPUUsage (u : BufferUsage) : Bool :=
  u.vertex || u.index || u.uniform || u.storage

/-- D3D11BufferSizeAlignment from BufferD3D11.cpp: uniform buffers align to
sizeof(float)*4*16 = 256 bytes; storage (or internal storage) buffers align to
4 bytes; all other usages align to 1 byte. -/
def d3d11BufferSizeAlignment (u : BufferUsage) : Nat :=
  if u.uniform then 256
  else if u.storage || u.internalStorage then 4
  else 1

/-- ValidationUsage from BufferD3D11.cpp: usage may not combine Uniform and
Storage on D3D11. -/
def validationUsage (u : BufferUsage) : Option DawnError :=
  if u.uniform && u.storage then some DawnError.validation else none

/-- Largest value of a uint64_t. -/
def uint64Max : Nat := 2 ^ 64 - 1

/-- Round `v` up to a multiple of `a`; this is dawn::Align for the power-of-two
alignments used by the buffer code. -/
def alignUp (v a : Nat) : Nat := ((v + a - 1) / a) * a

/-- Buffer::Initialize without the native-handle plumbing: validates the usage
combination, clamps the size to at least 4 bytes, checks the alignment-overflow
guard `size > uint64Max - alignment`, and returns the aligned allocated size. -/
def bufferAllocSize (u : BufferUsage) (requestedSize : Nat) : Except DawnError Nat :=
  match validationUsage u with
  | some e => Except.error e
  | none =>
    let size := max requestedSize 4
    let alignment := d3d11BufferSizeAlignment u
    if uint64Max - alignment < size then Except.error DawnError.outOfMemory
    else Except.ok (alignUp size alignment)

/-- Backend buffer state: logical size (GetSize), allocated size
(GetAllocatedSize), usage flags, whether mD3d11Buffer is non-null (otherwise the
authoritative store is the staging allocation), the bytes of the authoritative
store, and the frontend content-initialized flag. -/
structure Buffer where
  size : Nat
  allocatedSize : Nat
  usage : BufferUsage
  hasD3d11Buffer : Bool
  contents : Nat → Nat
  dataInit : Bool

/-- Buffer::Initialize building the whole buffer object: on success the native
handle exists iff the buffer is not mapped at creation and has a GPU usage;
`initialContents` stands for the arbitrary bytes of freshly allocated memory. -/
def bufferInit (u : BufferUsage) (requestedSize : Nat) (mappedAtCreation : Bool)
    (initialContents : Nat → Nat) : Except DawnError Buffer :=
  match bufferAllocSize u requestedSize with
  | Except.error e => Except.error e
  | Except.ok alloc =>
    Except.ok { size := requestedSize, allocatedSize := alloc, usage := u,
                hasD3d11Buffer := !mappedAtCreation && isGPUUsage u,
                contents := initialContents, dataInit := false }

/-- Native calls a buffer operation can issue on the D3D11 device context. -/
inductive NativeOp where
  | updateSub (fullBuffer : Bool) (offset size : Nat)
  | copySubRegion (dstOffset srcOffset size : Nat)
  | stagingReadback (srcOffset size : Nat)
deriving DecidableEq, Repr

/-- Overwrite `size` bytes of `f` starting at `offset` with `data` (memcpy /
the byte effect of UpdateSubresource with a dstBox). -/
def writeRange (f : Nat → Nat) (offset : Nat) (data : Nat → Nat) (size : Nat) : Nat → Nat :=
  fun i => if offset ≤ i ∧ i < offset + size then data (i - offset) else f i

/-- Set `size` bytes of `f` starting at `offset` to `v` (memset). -/
def fillRange (f : Nat → Nat) (offset : Nat) (v : Nat) (size : Nat) : Nat → Nat :=
  fun i => if offset ≤ i ∧ i < offset + size then v else f i

/-- Buffer::WriteBufferInternal: size-0 writes return at once; with a native
buffer, uniform-usage buffers reject any write that is not exactly the whole
logical range and otherwise issue a full-resource UpdateSubresource, while
non-uniform buffers issue a boxed UpdateSubresource; staging buffers memcpy. -/
def Buffer.writeBufferInternal (b : Buffer) (offset : Nat) (data : Nat → Nat) (size : Nat) :
    List NativeOp × Except DawnError Buffer :=
  if size = 0 then ([], Except.ok b)
  else if b.hasD3d11Buffer then
    if b.usage.uniform then
      if offset ≠ 0 ∨ size ≠ b.size then ([], Except.error DawnError.validation)
      else ([NativeOp.updateSub true 0 size],
            Except.ok { b with contents := writeRange b.contents 0 data size })
    else ([NativeOp.updateSub false offset size],
          Except.ok { b with contents := writeRange b.contents offset data size })
  else ([], Except.ok { b with contents := writeRange b.contents offset data size })

/-- Buffer::ClearBufferInternal: a size of 0 means the whole allocated size
(the default-argument form used by InitializeToZero); staging buffers memset,
native buffers delegate to WriteBufferInternal with a constant byte. -/
def Buffer.clearBufferInternal (b : Buffer) (clearValue offset size : Nat) :
    List NativeOp × Except DawnError Buffer :=
  let sz := if size = 0 then b.allocatedSize else size
  if b.hasD3d11Buffer then
    b.writeBufferInternal offset (fun _ => clearValue) sz
  else
    ([], Except.ok { b with contents := fillRange b.contents offset clearValue sz })

/-- Buffer::InitializeToZero: clear the whole allocated range to zero, then mark
the contents initialized (the lazy-clear counter is not modelled). -/
def Buffer.initToZero (b : Buffer) : List NativeOp × Except DawnError Buffer :=
  match b.clearBufferInternal 0 0 0 with
  | (t, Except.error e) => (t, Except.error e)
  | (t, Except.ok b1) => (t, Except.ok { b1 with dataInit := true })

/-- Modelled from the spec: BufferBase::NeedsInitialization, the frontend
content-initialized flag queried before lazy zero-fill (the frontend Buffer.cpp
is not under src/); a buffer needs initialization while the flag is unset. -/
def Buffer.needsInit (b : Buffer) : Bool := !b.dataInit

/-- Modelled from the spec: BufferBase::IsFullBufferRange (frontend code not
under src/); a write range covers the whole buffer iff it starts at offset 0
and spans exactly the logical size. -/
def Buffer.isFullBufferRange (b : Buffer) (offset size : Nat) : Bool :=
  offset == 0 && size == b.size

/-- Buffer::EnsureDataInitialized: zero-fill unless already initialized. -/
def Buffer.ensureDataInit (b : Buffer) : List NativeOp × Except DawnError Buffer :=
  if b.needsInit then b.initToZero else ([], Except.ok b)

/-- Buffer::EnsureDataInitializedAsDestination(offset, size): nothing to do if
initialized; if the range covers the whole buffer, mark initialized and skip
the zero-fill (returning false); otherwise zero-fill and return true. -/
def Buffer.ensureDataInitAsDest (b : Buffer) (offset size : Nat) :
    List NativeOp × Except DawnError (Buffer × Bool) :=
  if b.needsInit then
    if b.isFullBufferRange offset size then
      ([], Except.ok ({ b with dataInit := true }, false))
    else
      match b.initToZero with
      | (t, Except.error e) => (t, Except.error e)
      | (t, Except.ok b1) => (t, Except.ok (b1, true))
  else ([], Except.ok (b, false))

/-- Buffer::WriteBuffer: size-0 writes are a no-op; otherwise ensure the
destination is initialized for the range, then write. -/
def Buffer.writeBuffer (b : Buffer) (offset : Nat) (data : Nat → Nat) (size : Nat) :
    List NativeOp × Except DawnError Buffer :=
  if size = 0 then ([], Except.ok b)
  else
    match b.ensureDataInitAsDest offset size with
    | (t, Except.error e) => (t, Except.error e)
    | (t, Except.ok (b1, _)) =>
      match b1.writeBufferInternal offset data size with
      | (t2, r) => (t ++ t2, r)

/-- Buffer::ClearBuffer: size-0 clears are a no-op; otherwise ensure the
destination is initialized for the range, then clear. -/
def Buffer.clearBuffer (b : Buffer) (clearValue offset size : Nat) :
    List NativeOp × Except DawnError Buffer :=
  if size = 0 then ([], Except.ok b)
  else
    match b.ensureDataInitAsDest offset size with
    | (t, Except.error e) => (t, Except.error e)
    | (t, Except.ok (b1, _)) =>
      match b1.clearBufferInternal clearValue offset size with
      | (t2, r) => (t ++ t2, r)

/-- Buffer::CopyFromBuffer: size-0 copies are skipped; both endpoints are
initialization-ensured first; then one of the four residency cases runs
(GPU to GPU CopySubresourceRegion, GPU to staging blocking readback, staging
source via WriteBufferInternal). -/
def Buffer.copyFromBuffer (dst : Buffer) (offset size : Nat) (src : Buffer) (srcOffset : Nat) :
    List NativeOp × Except DawnError (Buffer × Buffer) :=
  if size = 0 then ([], Except.ok (dst, src))
  else
    match src.ensureDataInit with
    | (t1, Except.error e) => (t1, Except.error e)
    | (t1, Except.ok src1) =>
      match dst.ensureDataInitAsDest offset size with
      | (t2, Except.error e) => (t1 ++ t2, Except.error e)
      | (t2, Except.ok (dst1, _)) =>
        let newContents := writeRange dst1.contents offset
          (fun i => src1.contents (srcOffset + i)) size
        let copied := { dst1 with contents := newContents }
        if src1.hasD3d11Buffer && dst1.hasD3d11Buffer then
          (t1 ++ t2 ++ [NativeOp.copySubRegion offset srcOffset size], Except.ok (copied, src1))
        else if src1.hasD3d11Buffer then
          (t1 ++ t2 ++ [NativeOp.stagingReadback srcOffset size], Except.ok (copied, src1))
        else
          match dst1.writeBufferInternal offset (fun i => src1.contents (srcOffset + i)) size with
          | (t3, Except.error e) => (t1 ++ t2 ++ t3, Except.error e)
          | (t3, Except.ok dst2) => (t1 ++ t2 ++ t3, Except.ok (dst2, src1))

/-- A copy extent (width, height, depthOrArrayLayers). -/
structure Extent3D where
  width : Nat
  height : Nat
  depthOrArrayLayers : Nat
deriving DecidableEq, Repr

/-- Native texture-related calls issued by the executor copy commands. -/
inductive TexCall where
  | updateSubTexture (w h d : Nat)
  | createStagingTexture (w h d : Nat)
  | copyTexSubRegion (w h d : Nat)
  | mapStagingTexture
  | unmapStagingTexture
deriving DecidableEq, Repr

/-- CommandBuffer::Execute, CopyBufferToBuffer case: a size-0 copy is skipped
with no native call; otherwise it delegates to Buffer::CopyFromBuffer. -/
def execCopyBufferToBuffer (src dst : Buffer) (srcOffset dstOffset size : Nat) :
    List NativeOp × Except DawnError (Buffer × Buffer) :=
  if size = 0 then ([], Except.ok (src, dst))
  else
    match dst.copyFromBuffer dstOffset size src srcOffset with
    | (t, Except.error e) => (t, Except.error e)
    | (t, Except.ok (dst1, src1)) => (t, Except.ok (src1, dst1))

/-- CommandBuffer::Execute, CopyBufferToTexture case: skipped when any extent
dimension is zero; otherwise one UpdateSubresource with the copy box, sourcing
bytes from the buffer staging pointer. -/
def execCopyBufferToTexture (e : Extent3D) : List TexCall × Except DawnError Unit :=
  if e.width = 0 ∨ e.height = 0 ∨ e.depthOrArrayLayers = 0 then ([], Except.ok ())
  else ([TexCall.updateSubTexture e.width e.height e.depthOrArrayLayers], Except.ok ())

/-- The row loop of the CopyTextureToBuffer case: for each row y below `height`,
memcpy `cpySize` bytes from the mapped staging texture (row pitch `rowPitch`)
to the destination staging memory at `dstOffset + y * bytesPerRow`. -/
def copyRows (dstContents : Nat → Nat) (dstOffset bytesPerRow rowPitch cpySize height : Nat)
    (tex : Nat → Nat) : Nat → Nat :=
  (List.range height).foldl
    (fun acc y => writeRange acc (dstOffset + y * bytesPerRow)
      (fun j => tex (y * rowPitch + j)) cpySize)
    dstContents

/-- CommandBuffer::Execute, CopyTextureToBuffer case: skipped when any extent
dimension is zero; otherwise create a staging texture, copy the region into it,
block-map it, copy min(bytesPerRow, RowPitch) bytes per row into the
destination buffer's staging memory, and unmap. -/
def execCopyTextureToBuffer (dst : Buffer) (e : Extent3D)
    (dstOffset bytesPerRow rowPitch : Nat) (tex : Nat → Nat) :
    List TexCall × Except DawnError Buffer :=
  if e.width = 0 ∨ e.height = 0 ∨ e.depthOrArrayLayers = 0 then ([], Except.ok dst)
  else
    let newContents :=
      copyRows dst.contents dstOffset bytesPerRow rowPitch (min bytesPerRow rowPitch) e.height tex
    ([TexCall.createStagingTexture e.width e.height e.depthOrArrayLayers,
      TexCall.copyTexSubRegion e.width e.height e.depthOrArrayLayers,
      TexCall.mapStagingTexture, TexCall.unmapStagingTexture],
     Except.ok { dst with contents := newContents })

/-- Blend-constant color; the four float components are modelled exactly (they
are only stored and forwarded, never computed with). -/
structure Color where
  r : Rat
  g : Rat
  b : Rat
  a : Rat
deriving DecidableEq, Repr

/-- Transparent black, the blend-constant default of ExecuteRenderPass. -/
def transparentBlack : Color := { r := 0, g := 0, b := 0, a := 0 }

/-- Render-pass commands handled by CommandBuffer::ExecuteRenderPass (the
subset the state claims need; draws stand for the render-bundle commands). -/
inductive RenderCmd where
  | endRenderPass
  | setStencilReference (ref : Nat)
  | setBlendConstant (color : Color)
  | setViewport (x y w h : Rat)
  | setScissorRect (x y w h : Nat)
  | setRenderPipeline (pipeline : Nat)
  | draw (vertexCount instanceCount firstVertex firstInstance : Nat)
deriving DecidableEq, Repr

/-- Native calls issued while replaying a render pass.  applyPipeline records
RenderPipeline::ApplyNow(ctx, blendColor, stencilReference). -/
inductive RenderCall where
  | rsSetViewports (x y w h : Rat)
  | rsSetScissorRects (x y w h : Nat)
  | applyPipeline (pipeline : Nat) (blendColor : Color) (stencilReference : Nat)
  | drawInstanced (vertexCount instanceCount firstVertex firstInstance : Nat)
deriving DecidableEq, Repr

/-- Mutable per-pass state of ExecuteRenderPass. -/
structure RenderPassState where
  blendColor : Color
  stencilReference : Nat
deriving DecidableEq, Repr

/-- How the replay loop of ExecuteRenderPass was left. -/
inductive RenderPassExit where
  | endedByEndRenderPass
  | returnedAtSetStencilReference
  | ranOffEnd
deriving DecidableEq, Repr

/-- The command loop of CommandBuffer::ExecuteRenderPass.  EndRenderPass
returns normally; the SetStencilReference case stores the new reference and
then returns from the pass (the source writes return where the analogous
SetBlendConstant case writes break), leaving the rest of the commands
unconsumed; all other commands execute and continue.  The result carries the
native-call trace, the final pass state, how the loop exited, and the commands
left unconsumed in the iterator. -/
def execRenderPassCmds : List RenderCmd → RenderPassState →
    List RenderCall × RenderPassState × RenderPassExit × List RenderCmd
  | [], s => ([], s, RenderPassExit.ranOffEnd, [])
  | c :: rest, s =>
    match c with
    | RenderCmd.endRenderPass => ([], s, RenderPassExit.endedByEndRenderPass, rest)
    | RenderCmd.setStencilReference r =>
      ([], { s with stencilReference := r }, RenderPassExit.returnedAtSetStencilReference, rest)
    | RenderCmd.setBlendConstant col =>
      execRenderPassCmds rest { s with blendColor := col }
    | RenderCmd.setViewport x y w h =>
      let (t, s1, ex, rem) := execRenderPassCmds rest s
      (RenderCall.rsSetViewports x y w h :: t, s1, ex, rem)
    | RenderCmd.setScissorRect x y w h =>
      let (t, s1, ex, rem) := execRenderPassCmds rest s
      (RenderCall.rsSetScissorRects x y w h :: t, s1, ex, rem)
    | RenderCmd.setRenderPipeline p =>
      let (t, s1, ex, rem) := execRenderPassCmds rest s
      (RenderCall.applyPipeline p s.blendColor s.stencilReference :: t, s1, ex, rem)
    | RenderCmd.draw a b c d =>
      let (t, s1, ex, rem) := execRenderPassCmds rest s
      (RenderCall.drawInstanced a b c d :: t, s1, ex, rem)

/-- ExecuteRenderPass entry: blendColor starts as transparent black and
stencilReference starts as zero. -/
def execRenderPass (cmds : List RenderCmd) :
    List RenderCall × RenderPassState × RenderPassExit × List RenderCmd :=
  execRenderPassCmds cmds { blendColor := transparentBlack, stencilReference := 0 }

/-- One binding of a bind group, as dispatched by BindGroupTracker's
ApplyBindGroup switch; buffer bindings carry their shader-stage visibility. -/
inductive ComputeBinding where
  | uniformBuf (visVertex visFragment visCompute : Bool)
  | storageBuf (visVertex visFragment visCompute : Bool) (uavId : Nat)
  | readOnlyStorageBuf (visVertex visFragment visCompute : Bool)
  | samplerBinding (visVertex visFragment visCompute : Bool)
  | sampledTexture (srvId : Nat)
  | storageTexture
  | externalTexture
deriving DecidableEq, Repr

/-- A bind group: the bindings with their flat native binding slots (the slot
comes from the pipeline layout's BindingIndexInfo). -/
def BindGroup := List (Nat × ComputeBinding)

/-- Native calls issued while executing a compute pass. -/
inductive ComputeCall where
  | vsSetConstantBuffer (slot : Nat)
  | psSetConstantBuffer (slot : Nat)
  | csSetConstantBuffer (slot : Nat)
  | csSetUAV (slot : Nat) (view : Option Nat)
  | vsSetSRV (slot : Nat)
  | psSetSRV (slot : Nat)
  | csSetSRV (slot : Nat)
  | setSampler (slot : Nat)
  | recordWorkgroups (x y z : Nat)
  | dispatchCall (x y z : Nat)
  | dispatchIndirectCall (bufId offset : Nat)
deriving DecidableEq, Repr

/-- State of the compute-pass BindGroupTracker plus the device-context UAV
slots: the bind groups whose identity or dynamic offsets changed since the last
apply (modelled from the spec for the frontend BindGroupTrackerBase dirty
tracking, which is not under src/), the mUnorderedAccessViews record of slots
bound since the last dispatch, and the current CS UAV slot assignments. -/
structure ComputeState where
  pendingGroups : List BindGroup
  recordedUAVs : List Nat
  uavSlots : Nat → Option Nat

/-- BindGroupTracker::ApplyBindGroup over the bindings of one group: uniform
buffers bind constant buffers per visible stage; storage buffers bind a CS UAV
and record the slot, and are a validation error outside compute visibility;
read-only storage buffers bind SRVs per stage; samplers bind per stage; sampled
textures bind a PS SRV; storage and external textures are unimplemented. -/
def applyBindings : ComputeState → List ComputeCall → List (Nat × ComputeBinding) →
    Except DawnError (ComputeState × List ComputeCall)
  | s, acc, [] => Except.ok (s, acc)
  | s, acc, (slot, bnd) :: rest =>
    match bnd with
    | ComputeBinding.uniformBuf v f c =>
      let calls := (if v then [ComputeCall.vsSetConstantBuffer slot] else []) ++
                   (if f then [ComputeCall.psSetConstantBuffer slot] else []) ++
                   (if c then [ComputeCall.csSetConstantBuffer slot] else [])
      applyBindings s (acc ++ calls) rest
    | ComputeBinding.storageBuf _ _ c uavId =>
      if c then
        applyBindings
          { s with recordedUAVs := s.recordedUAVs ++ [slot],
                   uavSlots := fun x => if x = slot then some uavId else s.uavSlots x }
          (acc ++ [ComputeCall.csSetUAV slot (some uavId)]) rest
      else Except.error DawnError.validation
    | ComputeBinding.readOnlyStorageBuf v f c =>
      let calls := (if v then [ComputeCall.vsSetSRV slot] else []) ++
                   (if f then [ComputeCall.psSetSRV slot] else []) ++
                   (if c then [ComputeCall.csSetSRV slot] else [])
      applyBindings s (acc ++ calls) rest
    | ComputeBinding.samplerBinding v f c =>
      let calls := if v || f || c then [ComputeCall.setSampler slot] else []
      applyBindings s (acc ++ calls) rest
    | ComputeBinding.sampledTexture _ =>
      applyBindings s (acc ++ [ComputeCall.psSetSRV slot]) rest
    | ComputeBinding.storageTexture => Except.error DawnError.unimplemented
    | ComputeBinding.externalTexture => Except.error DawnError.unimplemented

/-- Apply every dirty bind group in order (the loop in
BindGroupTracker::Apply). -/
def applyGroups : ComputeState → List ComputeCall → List BindGroup →
    Except DawnError (ComputeState × List ComputeCall)
  | s, acc, [] => Except.ok (s, acc)
  | s, acc, g :: rest =>
    match applyBindings s acc g with
    | Except.error e => Except.error e
    | Except.ok (s1, acc1) => applyGroups s1 acc1 rest

/-- BindGroupTracker::Apply: rebind the dirty groups, then clear the dirty set
(BeforeApply/AfterApply bookkeeping). -/
def trackerApply (s : ComputeState) : Except DawnError (ComputeState × List ComputeCall) :=
  match applyGroups s [] s.pendingGroups with
  | Except.error e => Except.error e
  | Except.ok (s1, t) => Except.ok ({ s1 with pendingGroups := [] }, t)

/-- The loop body of BindGroupTracker::AfterDispatch: set each recorded UAV
slot to null in order. -/
def clearUAVs : List Nat → (Nat → Option Nat) → Nat → Option Nat
  | [], f => f
  | slot :: rest, f => clearUAVs rest (fun x => if x = slot then none else f x)

/-- BindGroupTracker::AfterDispatch: null out every UAV slot recorded since the
last dispatch and clear the record. -/
def afterDispatch (s : ComputeState) : ComputeState × List ComputeCall :=
  ({ s with recordedUAVs := [], uavSlots := clearUAVs s.recordedUAVs s.uavSlots },
   s.recordedUAVs.map (fun slot => ComputeCall.csSetUAV slot none))

/-- Compute-pass commands handled by CommandBuffer::ExecuteComputePass. -/
inductive ComputeCmd where
  | endComputePass
  | dispatchWork (x y z : Nat)
  | dispatchIndirect (bufId offset : Nat)
  | setComputePipeline (pipeline : Nat)
  | setBindGroup (index : Nat) (group : BindGroup)

/-- One step of CommandBuffer::ExecuteComputePass.  Dispatch applies the
pending bind groups, writes the workgroup counts into the reserved uniform
buffer, issues the native dispatch, and then runs AfterDispatch;
DispatchIndirect is the same without the workgroup-count write; SetBindGroup
marks the group dirty; SetComputePipeline and EndComputePass do not touch the
tracker state. -/
def execComputeCmd (s : ComputeState) :
    ComputeCmd → Except DawnError (ComputeState × List ComputeCall)
  | ComputeCmd.endComputePass => Except.ok (s, [])
  | ComputeCmd.dispatchWork x y z =>
    match trackerApply s with
    | Except.error e => Except.error e
    | Except.ok (s1, t1) =>
      let (s2, t2) := afterDispatch s1
      Except.ok (s2, t1 ++ [ComputeCall.recordWorkgroups x y z, ComputeCall.dispatchCall x y z] ++ t2)
  | ComputeCmd.dispatchIndirect bufId off =>
    match trackerApply s with
    | Except.error e => Except.error e
    | Except.ok (s1, t1) =>
      let (s2, t2) := afterDispatch s1
      Except.ok (s2, t1 ++ [ComputeCall.dispatchIndirectCall bufId off] ++ t2)
  | ComputeCmd.setComputePipeline _ => Except.ok (s, [])
  | ComputeCmd.setBindGroup _ g =>
    Except.ok ({ s with pendingGroups := s.pendingGroups ++ [g] }, [])

/-- Cache state of a TextureView: one slot per view kind, plus four
depth-stencil slots keyed by the (depthReadOnly, stencilReadOnly) pair.  An
outer `none` means the std::optional is empty; a populated slot holds the
ComPtr, where the inner `none` is a null native pointer. -/
structure TextureViewState where
  srv : Option (Option Nat)
  rtv : Option (Option Nat)
  uav : Option (Option Nat)
  dsv0 : Option (Option Nat)
  dsv1 : Option (Option Nat)
  dsv2 : Option (Option Nat)
  dsv3 : Option (Option Nat)
deriving DecidableEq, Repr

/-- Index into mDepthStencilViews: (depthReadOnly ? 1 : 0) + (stencilReadOnly ? 2 : 0). -/
def dsvIndex (depthReadOnly stencilReadOnly : Bool) : Nat :=
  (if depthReadOnly then 1 else 0) + (if stencilReadOnly then 2 else 0)

/-- Read the depth-stencil cache slot with the given index. -/
def TextureViewState.getDsvSlot (tv : TextureViewState) : Nat → Option (Option Nat)
  | 0 => tv.dsv0
  | 1 => tv.dsv1
  | 2 => tv.dsv2
  | _ => tv.dsv3

/-- Write the depth-stencil cache slot with the given index. -/
def TextureViewState.setDsvSlot (tv : TextureViewState) (i : Nat) (v : Option (Option Nat)) :
    TextureViewState :=
  match i with
  | 0 => { tv with dsv0 := v }
  | 1 => { tv with dsv1 := v }
  | 2 => { tv with dsv2 := v }
  | _ => { tv with dsv3 := v }

/-- TextureView::GetD3D11ShaderResourceView: if the cache slot is empty, the
ComPtr is emplaced before the fallible native CreateShaderResourceView call
(argument `create` is its outcome), so on failure the slot stays populated with
a null pointer; a populated slot short-circuits and returns the stored pointer. -/
def getSRV (create : Except DawnError Nat) (tv : TextureViewState) :
    TextureViewState × Except DawnError (Option Nat) :=
  match tv.srv with
  | some v => (tv, Except.ok v)
  | none =>
    match create with
    | Except.ok ptr => ({ tv with srv := some (some ptr) }, Except.ok (some ptr))
    | Except.error e => ({ tv with srv := some none }, Except.error e)

/-- TextureView::GetD3D11RenderTargetView, same caching discipline. -/
def getRTV (create : Except DawnError Nat) (tv : TextureViewState) :
    TextureViewState × Except DawnError (Option Nat) :=
  match tv.rtv with
  | some v => (tv, Except.ok v)
  | none =>
    match create with
    | Except.ok ptr => ({ tv with rtv := some (some ptr) }, Except.ok (some ptr))
    | Except.error e => ({ tv with rtv := some none }, Except.error e)

/-- TextureView::GetD3D11UnorderedAccessView, same caching discipline. -/
def getUAV (create : Except DawnError Nat) (tv : TextureViewState) :
    TextureViewState × Except DawnError (Option Nat) :=
  match tv.uav with
  | some v => (tv, Except.ok v)
  | none =>
    match create with
    | Except.ok ptr => ({ tv with uav := some (some ptr) }, Except.ok (some ptr))
    | Except.error e => ({ tv with uav := some none }, Except.error e)

/-- TextureView::GetD3D11DepthStencilView(depthReadOnly, stencilReadOnly), the
cache slot selected by dsvIndex. -/
def getDSV (create : Except DawnError Nat) (depthReadOnly stencilReadOnly : Bool)
    (tv : TextureViewState) : TextureViewState × Except DawnError (Option Nat) :=
  let i := dsvIndex depthReadOnly stencilReadOnly
  match tv.getDsvSlot i with
  | some v => (tv, Except.ok v)
  | none =>
    match create with
    | Except.ok ptr => (tv.setDsvSlot i (some (some ptr)), Except.ok (some ptr))
    | Except.error e => (tv.setDsvSlot i (some none), Except.error e)

/-- CommandRecordingContext state: the open flag and the needs-submit flag
(mSharedTextures and the device pointers are not needed by the claims). -/
structure CommandRecordingContext where
  isOpen : Bool
  needsSubmit : Bool
deriving DecidableEq, Repr

/-- CommandRecordingContext::Open: marks the context open and clears the
needs-submit flag (the source also asserts it was not already open and caches
the device context). -/
def CommandRecordingContext.openCtx (ctx : CommandRecordingContext) : CommandRecordingContext :=
  { ctx with isOpen := true, needsSubmit := false }

/-- CommandRecordingContext::ExecuteCommandList: if the context is open it is
marked closed; nothing else changes. -/
def CommandRecordingContext.executeCommandList (ctx : CommandRecordingContext) :
    CommandRecordingContext :=
  if ctx.isOpen then { ctx with isOpen := false } else ctx

/-- CommandRecordingContext::SetNeedsSubmit. -/
def CommandRecordingContext.setNeedsSubmit (ctx : CommandRecordingContext) :
    CommandRecordingContext :=
  { ctx with needsSubmit := true }

/-- CommandRecordingContext::Release: everything is reset. -/
def CommandRecordingContext.release (_ctx : CommandRecordingContext) : CommandRecordingContext :=
  { isOpen := false, needsSubmit := false }

/-- Present modes of the swapchain boundary. -/
inductive PresentMode where
  | immediate
  | fifo
  | mailbox
deriving DecidableEq, Repr

/-- PresentModeToBufferCount from SwapChainD3D11.cpp. -/
def presentModeToBufferCount : PresentMode → Nat
  | PresentMode.immediate => 2
  | PresentMode.fifo => 2
  | PresentMode.mailbox => 3

/-- PresentModeToSwapInterval from SwapChainD3D11.cpp. -/
def presentModeToSwapInterval : PresentMode → Nat
  | PresentMode.immediate => 0
  | PresentMode.mailbox => 0
  | PresentMode.fifo => 1

/-- DXGI_SWAP_CHAIN_FLAG_ALLOW_MODE_SWITCH. -/
def allowModeSwitchFlag : Nat := 2

/-- DXGI_SWAP_CHAIN_FLAG_ALLOW_TEARING. -/
def allowTearingFlag : Nat := 2048

/-- PresentModeToSwapChainFlags: always ALLOW_MODE_SWITCH, plus ALLOW_TEARING
for Immediate. -/
def presentModeToSwapChainFlags (m : PresentMode) : Nat :=
  allowModeSwitchFlag ||| (if m = PresentMode.immediate then allowTearingFlag else 0)

/-- The swapchain parameters that decide buffer reuse. -/
structure SwapChainParams where
  width : Nat
  height : Nat
  format : Nat
  presentMode : PresentMode
deriving DecidableEq, Repr

/-- The previous swapchain on the surface, as SwapChain::Initialize sees it. -/
structure PreviousSwapChain where
  params : SwapChainParams
  backendIsD3D11 : Bool
  sameDevice : Bool
deriving DecidableEq, Repr

/-- Observable actions of SwapChain::Initialize, in program order.
drainPrevious is DetachAndWaitForDeallocation (NextSerial, blocking
WaitForSerial, TickImpl); adoptSwapChain moves the previous IDXGISwapChain;
adoptBuffer moves the previous buffer and its last-used serial. -/
inductive SwapChainAction where
  | drainPrevious
  | createFromScratch
  | adoptSwapChain
  | adoptBuffer
  | resizeBuffers
  | getBuffer
deriving DecidableEq, Repr

/-- SwapChain::Initialize: no previous swapchain builds from scratch; a
previous swapchain of another backend or device is a validation error; if the
ALLOW_TEARING bit of the swapchain flags differs, drain the previous swapchain
and rebuild from scratch; otherwise adopt the native swapchain object, and
reuse the buffer when width, height, format, and present mode are unchanged, or
else drain, resize the buffers in place, and re-fetch the buffer. -/
def swapChainInit (cur : SwapChainParams) (prev : Option PreviousSwapChain) :
    Except DawnError (List SwapChainAction) :=
  match prev with
  | none => Except.ok [SwapChainAction.createFromScratch]
  | some p =>
    if !p.backendIsD3D11 then Except.error DawnError.validation
    else if !p.sameDevice then Except.error DawnError.validation
    else
      if (presentModeToSwapChainFlags cur.presentMode ^^^
          presentModeToSwapChainFlags p.params.presentMode) &&& allowTearingFlag ≠ 0 then
        Except.ok [SwapChainAction.drainPrevious, SwapChainAction.createFromScratch]
      else if cur.width = p.params.width ∧ cur.height = p.params.height ∧
              cur.format = p.params.format ∧ cur.presentMode = p.params.presentMode then
        Except.ok [SwapChainAction.adoptSwapChain, SwapChainAction.adoptBuffer]
      else
        Except.ok [SwapChainAction.adoptSwapChain, SwapChainAction.drainPrevious,
                   SwapChainAction.resizeBuffers, SwapChainAction.getBuffer]

/-- Whether a buffer operation result is a success. -/
def isOkResult : Except DawnError Buffer → Bool
  | Except.ok _ => true
  | Except.error _ => false

/-- Usage flags of a plain uniform buffer. -/
def uniformUsage : BufferUsage :=
  { mapRead := false, mapWrite := false, vertex := false, index := false, uniform := true,
    storage := false, indirect := false, internalStorage := false, readOnlyStorage := false }

/-- Usage flags combining uniform and storage (rejected by ValidationUsage). -/
def uniformStorageUsage : BufferUsage :=
  { uniformUsage with storage := true }

/-- Usage flags of a plain vertex buffer. -/
def vertexUsage : BufferUsage :=
  { mapRead := false, mapWrite := false, vertex := true, index := false, uniform := false,
    storage := false, indirect := false, internalStorage := false, readOnlyStorage := false }

/-- A GPU-resident uniform buffer of logical size 300; its allocated size is
Align(300, 256) = 512, so allocated and logical size differ.  Contents start
uninitialized (arbitrary byte 7). -/
def cbuf300 : Buffer :=
  { size := 300, allocatedSize := 512, usage := uniformUsage, hasD3d11Buffer := true,
    contents := fun _ => 7, dataInit := false }

/-- A GPU-resident uniform buffer of logical size 256 = allocated size,
contents uninitialized. -/
def ubuf256 : Buffer :=
  { size := 256, allocatedSize := 256, usage := uniformUsage, hasD3d11Buffer := true,
    contents := fun _ => 7, dataInit := false }

/-- A GPU-resident uniform buffer of size 256 whose contents are already
initialized. -/
def ubufInit : Buffer :=
  { size := 256, allocatedSize := 256, usage := uniformUsage, hasD3d11Buffer := true,
    contents := fun _ => 0, dataInit := true }

/-- A GPU-resident vertex buffer of size 8, contents uninitialized. -/
def vbuf8 : Buffer :=
  { size := 8, allocatedSize := 8, usage := vertexUsage, hasD3d11Buffer := true,
    contents := fun _ => 7, dataInit := false }

/-- A TextureView whose caches are all empty. -/
def tvEmpty : TextureViewState :=
  { srv := none, rtv := none, uav := none,
    dsv0 := none, dsv1 := none, dsv2 := none, dsv3 := none }

/-- A TextureView with populated caches (dsv0 holds the (false, false) key). -/
def tvCached : TextureViewState :=
  { srv := some (some 5), rtv := some (some 6), uav := some (some 7),
    dsv0 := some (some 8), dsv1 := none, dsv2 := none, dsv3 := none }

/-- A recording context that is open with pending recorded commands. -/
def ctxOpenDirty : CommandRecordingContext := { isOpen := true, needsSubmit := true }

/-- A sample blend-constant color. -/
def blendTeal : Color := { r := 1, g := 2, b := 3, a := 4 }

/-- A compute-pass tracker state with one dirty bind group holding a
compute-visible storage buffer at slot 3, and slot 1 recorded from an earlier
apply (still bound to view 4). -/
def csW : ComputeState :=
  { pendingGroups := [[(3, ComputeBinding.storageBuf false false true 9)]],
    recordedUAVs := [1],
    uavSlots := fun i => if i = 1 then some 4 else none }

/-- The tracker state after applying the dirty groups of csW. -/
def csW1 : ComputeState :=
  { pendingGroups := [], recordedUAVs := [1, 3],
    uavSlots := fun x => if x = 3 then some 9 else csW.uavSlots x }

/-- Swapchain parameters of a 640 x 480 FIFO swapchain. -/
def scParams1 : SwapChainParams :=
  { width := 640, height := 480, format := 1, presentMode := PresentMode.fifo }

/-- A live previous D3D11 swapchain on the same device with those parameters. -/
def scPrev1 : PreviousSwapChain :=
  { params := scParams1, backendIsD3D11 := true, sameDevice := true }

/-! Helper lemmas. -/

theorem alignment_pos (u : BufferUsage) : 0 < d3d11BufferSizeAlignment u := by
  unfold d3d11BufferSizeAlignment
  split
  · decide
  · split <;> decide

theorem alignment_le (u : BufferUsage) : d3d11BufferSizeAlignment u ≤ 256 := by
  unfold d3d11BufferSizeAlignment
  split
  · decide
  · split <;> decide

theorem alignUp_dvd (v a : Nat) : a ∣ alignUp v a := by
  unfold alignUp
  exact dvd_mul_left a _

theorem le_alignUp (v a : Nat) (ha : 0 < a) : v ≤ alignUp v a := by
  unfold alignUp
  have h1 := Nat.div_add_mod (v + a - 1) a
  have h2 : (v + a - 1) % a < a := Nat.mod_lt _ ha
  rw [Nat.mul_comm]
  omega

theorem alignUp_lt (v a : Nat) (ha : 0 < a) : alignUp v a < v + a := by
  unfold alignUp
  have h1 := Nat.div_add_mod (v + a - 1) a
  have h2 : (v + a - 1) % a < a := Nat.mod_lt _ ha
  rw [Nat.mul_comm]
  omega

theorem writeRange_lt (f data : Nat → Nat) (size i : Nat) (h : i < size) :
    writeRange f 0 data size i = data i := by
  unfold writeRange
  simp [h]

theorem writeRange_zero_fill (f : Nat → Nat) (n : Nat) :
    writeRange f 0 (fun _ => 0) n = fillRange f 0 0 n := by
  funext i
  unfold writeRange fillRange
  rfl

theorem clearUAVs_eq (l : List Nat) (f : Nat → Option Nat) (x : Nat) :
    clearUAVs l f x = if x ∈ l then none else f x := by
  induction l generalizing f with
  | nil => simp [clearUAVs]
  | cons s rest ih =>
    simp only [clearUAVs, ih, List.mem_cons]
    by_cases hx : x ∈ rest
    · simp [hx]
    · by_cases hxs : x = s <;> simp [hx, hxs]

theorem ensureDest_full (b : Buffer) (hb : b.dataInit = false) :
    b.ensureDataInitAsDest 0 b.size = ([], Except.ok ({ b with dataInit := true }, false)) := by
  unfold Buffer.ensureDataInitAsDest Buffer.needsInit Buffer.isFullBufferRange
  simp [hb]

theorem ensureDest_done (b : Buffer) (hb : b.dataInit = true) (offset size : Nat) :
    b.ensureDataInitAsDest offset size = ([], Except.ok (b, false)) := by
  unfold Buffer.ensureDataInitAsDest Buffer.needsInit
  simp [hb]

theorem notFull_isFullBufferRange (b : Buffer) (offset size : Nat)
    (hp : ¬(offset = 0 ∧ size = b.size)) : b.isFullBufferRange offset size = false := by
  unfold Buffer.isFullBufferRange
  by_cases h0 : offset = 0 <;> by_cases hsz : size = b.size <;> simp_all

theorem initToZero_staging (b : Buffer) (hg : b.hasD3d11Buffer = false) :
    b.initToZero =
      ([], Except.ok { b with contents := fillRange b.contents 0 0 b.allocatedSize,
                              dataInit := true }) := by
  unfold Buffer.initToZero Buffer.clearBufferInternal
  simp [hg]

theorem initToZero_gpu (b : Buffer) (hg : b.hasD3d11Buffer = true)
    (hz : b.allocatedSize ≠ 0)
    (hok : b.usage.uniform = true → b.allocatedSize = b.size) :
    b.initToZero =
      ([NativeOp.updateSub b.usage.uniform 0 b.allocatedSize],
       Except.ok { b with contents := fillRange b.contents 0 0 b.allocatedSize,
                          dataInit := true }) := by
  unfold Buffer.initToZero Buffer.clearBufferInternal Buffer.writeBufferInternal
  rw [← writeRange_zero_fill]
  cases hu : b.usage.uniform with
  | false => simp [hg, hz, hu]
  | true =>
    have hzs : b.size ≠ 0 := by rw [← hok hu]; exact hz
    simp [hg, hu, hok hu, hzs]

theorem initToZero_gpu_uniform_mismatch (b : Buffer) (hg : b.hasD3d11Buffer = true)
    (hu : b.usage.uniform = true) (hz : b.allocatedSize ≠ 0)
    (hne : b.allocatedSize ≠ b.size) :
    b.initToZero = ([], Except.error DawnError.validation) := by
  unfold Buffer.initToZero Buffer.clearBufferInternal Buffer.writeBufferInternal
  simp [hg, hz, hu, hne]

/-! Claim theorems. -/

/-- C8 counterexample: take an open recording context whose needs-submit flag
is set; ExecuteCommandList closes it, yet NeedsSubmit() still returns true
afterwards, contradicting the claim that it returns false once
ExecuteCommandList returns. -/
theorem c8_counterexample :
    ctxOpenDirty.isOpen = true
  ∧ ctxOpenDirty.needsSubmit = true
  ∧ (ctxOpenDirty.executeCommandList).isOpen = false
  ∧ (ctxOpenDirty.executeCommandList).needsSubmit = true :=
  ⟨rfl, rfl, rfl, rfl⟩

/-- C8 (amended): SetNeedsSubmit sets the needs-submit flag;
ExecuteCommandList merely closes the context and leaves the flag unchanged;
the flag is cleared when the context is (re)opened by Open and by Release. -/
theorem c8_needs_submit_lifecycle (ctx : CommandRecordingContext) :
    (ctx.setNeedsSubmit).needsSubmit = true
  ∧ (ctx.executeCommandList).needsSubmit = ctx.needsSubmit
  ∧ (ctx.executeCommandList).isOpen = false
  ∧ (ctx.openCtx).needsSubmit = false
  ∧ (ctx.release).needsSubmit = false := by
  refine ⟨rfl, ?_, ?_, rfl, rfl⟩ <;>
    unfold CommandRecordingContext.executeCommandList <;> split
  · rfl
  · rfl
  · rfl
  · rename_i h
    simpa using h

/-- C6: each cached view accessor of a TextureView constructs the native view
on the first call (populating the cache slot selected by its key), and any
call that finds the slot populated returns the identical stored native object
and leaves the state untouched; the depth-stencil accessor is keyed by the
(depthReadOnly, stencilReadOnly) pair via dsvIndex. -/
theorem c6_view_cache (tv : TextureViewState) (create : Except DawnError Nat) (v : Nat)
    (hv : Option Nat) (dRO sRO : Bool) :
    (tv.srv = none →
      getSRV (Except.ok v) tv = ({ tv with srv := some (some v) }, Except.ok (some v)))
  ∧ (tv.srv = some hv → getSRV create tv = (tv, Except.ok hv))
  ∧ (tv.rtv = none →
      getRTV (Except.ok v) tv = ({ tv with rtv := some (some v) }, Except.ok (some v)))
  ∧ (tv.rtv = some hv → getRTV create tv = (tv, Except.ok hv))
  ∧ (tv.uav = none →
      getUAV (Except.ok v) tv = ({ tv with uav := some (some v) }, Except.ok (some v)))
  ∧ (tv.uav = some hv → getUAV create tv = (tv, Except.ok hv))
  ∧ (tv.getDsvSlot (dsvIndex dRO sRO) = none →
      getDSV (Except.ok v) dRO sRO tv =
        (tv.setDsvSlot (dsvIndex dRO sRO) (some (some v)), Except.ok (some v)))
  ∧ (tv.getDsvSlot (dsvIndex dRO sRO) = some hv →
      getDSV create dRO sRO tv = (tv, Except.ok hv)) := by
  refine ⟨?_, ?_, ?_, ?_, ?_, ?_, ?_, ?_⟩ <;> intro h
  · simp [getSRV, h]
  · simp [getSRV, h]
  · simp [getRTV, h]
  · simp [getRTV, h]
  · simp [getUAV, h]
  · simp [getUAV, h]
  · simp [getDSV, h]
  · simp [getDSV, h]

/-- C6 witness: on an empty cache the first call builds and stores the view;
on a populated cache the accessor returns the stored object (even when the
native creation outcome would now be a failure), for the shader-resource and
the (false, false)-keyed depth-stencil accessors. -/
theorem c6_witness :
    getSRV (Except.ok 5) tvEmpty = ({ tvEmpty with srv := some (some 5) }, Except.ok (some 5))
  ∧ getSRV (Except.error DawnError.validation) tvCached = (tvCached, Except.ok (some 5))
  ∧ getDSV (Except.error DawnError.validation) false false tvCached =
      (tvCached, Except.ok (some 8)) :=
  ⟨(c6_view_cache tvEmpty (Except.ok 5) 5 (some 5) false false).1 rfl,
   (c6_view_cache tvCached (Except.error DawnError.validation) 5 (some 5) false false).2.1 rfl,
   (c6_view_cache tvCached (Except.error DawnError.validation) 5 (some 8) false
       false).2.2.2.2.2.2.2 rfl⟩

/-- C10: when the first call to a cached view accessor fails, the cache slot
has already been emplaced and therefore holds a null ComPtr; every later call
finds the slot populated and returns that null native handle as a success
(shown for the shader-resource and render-target accessors, whose source is
cited by the claim). -/
theorem c10_failed_create_caches_null (tv : TextureViewState) (e : DawnError)
    (retry : Except DawnError Nat) (hs : tv.srv = none) (hr : tv.rtv = none) :
    getSRV (Except.error e) tv = ({ tv with srv := some none }, Except.error e)
  ∧ getSRV retry { tv with srv := some none } = ({ tv with srv := some none }, Except.ok none)
  ∧ getRTV (Except.error e) tv = ({ tv with rtv := some none }, Except.error e)
  ∧ getRTV retry { tv with rtv := some none } =
      ({ tv with rtv := some none }, Except.ok none) := by
  refine ⟨?_, ?_, ?_, ?_⟩
  · simp [getSRV, hs]
  · simp [getSRV]
  · simp [getRTV, hr]
  · simp [getRTV]

/-- C10 witness: a failing first shader-resource-view creation populates the
cache with a null view, and the retry returns that null handle as a success. -/
theorem c10_witness :
    getSRV (Except.error DawnError.internalErr) tvEmpty =
      ({ tvEmpty with srv := some none }, Except.error DawnError.internalErr)
  ∧ getSRV (Except.ok 9) { tvEmpty with srv := some none } =
      ({ tvEmpty with srv := some none }, Except.ok none) :=
  ⟨(c10_failed_create_caches_null tvEmpty DawnError.internalErr (Except.ok 9) rfl rfl).1,
   (c10_failed_create_caches_null tvEmpty DawnError.internalErr (Except.ok 9) rfl rfl).2.1⟩

/-- C3: the code bug evaluated on concrete pass streams.  At pass entry the
blend constant is transparent black and the stencil reference is zero, and a
pipeline application consumes exactly those values; SetBlendConstant overrides
the value used by a later pipeline application and replay continues to
EndRenderPass; but a SetStencilReference command stores the new reference and
then returns from ExecuteRenderPass, so the remaining pass commands (here a
SetRenderPipeline and the EndRenderPass) are left unconsumed, contradicting the
claim that replay continues until EndRenderPass. -/
theorem c3_stencil_reference_aborts_pass :
    execRenderPass [RenderCmd.setRenderPipeline 0, RenderCmd.endRenderPass]
      = ([RenderCall.applyPipeline 0 transparentBlack 0],
         { blendColor := transparentBlack, stencilReference := 0 },
         RenderPassExit.endedByEndRenderPass, [])
  ∧ execRenderPass [RenderCmd.setBlendConstant blendTeal, RenderCmd.setRenderPipeline 0,
        RenderCmd.endRenderPass]
      = ([RenderCall.applyPipeline 0 blendTeal 0],
         { blendColor := blendTeal, stencilReference := 0 },
         RenderPassExit.endedByEndRenderPass, [])
  ∧ execRenderPass [RenderCmd.setStencilReference 1, RenderCmd.setRenderPipeline 0,
        RenderCmd.endRenderPass]
      = ([], { blendColor := transparentBlack, stencilReference := 1 },
         RenderPassExit.returnedAtSetStencilReference,
         [RenderCmd.setRenderPipeline 0, RenderCmd.endRenderPass]) :=
  ⟨rfl, rfl, rfl⟩

/-- C5 counterexample: a uniform-only buffer of requested size 260 gets an
allocated size of 512 = Align(260, 256), which lies on a 256-byte boundary but
on neither a 1024-byte nor a 256-constant (4096-byte) boundary, so the claimed
uniform alignment is wrong. -/
theorem c5_counterexample :
    bufferAllocSize uniformUsage 260 = Except.ok 512
  ∧ (512 % 1024 = 512) ∧ (512 % 4096 = 512) ∧ (512 % 256 = 0) := by
  refine ⟨?_, by decide, by decide, by decide⟩
  rfl

/-- C5 (amended): buffer initialization rejects usage combining Uniform and
Storage with a Validation error; otherwise the usage-dependent alignment is 256
bytes (16 shader constants) for uniform buffers, 4 bytes for storage buffers,
and 1 byte for all others, the call fails with OutOfMemory exactly when adding
the alignment to max(requestedSize, 4) would exceed the 64-bit maximum, and
otherwise the allocated size is max(requestedSize, 4) rounded up to the
alignment (a multiple of the alignment, at least the size, and within one
alignment of it). -/
theorem c5_buffer_alloc (u : BufferUsage) (n : Nat) :
    (u.uniform = true → u.storage = true →
      bufferAllocSize u n = Except.error DawnError.validation)
  ∧ (¬(u.uniform = true ∧ u.storage = true) →
      d3d11BufferSizeAlignment u =
        (if u.uniform then 256 else if u.storage || u.internalStorage then 4 else 1)
      ∧ (uint64Max < max n 4 + d3d11BufferSizeAlignment u →
          bufferAllocSize u n = Except.error DawnError.outOfMemory)
      ∧ (max n 4 + d3d11BufferSizeAlignment u ≤ uint64Max →
          bufferAllocSize u n = Except.ok (alignUp (max n 4) (d3d11BufferSizeAlignment u))
          ∧ d3d11BufferSizeAlignment u ∣ alignUp (max n 4) (d3d11BufferSizeAlignment u)
          ∧ max n 4 ≤ alignUp (max n 4) (d3d11BufferSizeAlignment u)
          ∧ alignUp (max n 4) (d3d11BufferSizeAlignment u)
              < max n 4 + d3d11BufferSizeAlignment u)) := by
  constructor
  · intro hu hs
    unfold bufferAllocSize validationUsage
    simp [hu, hs]
  · intro hns
    have ha : 0 < d3d11BufferSizeAlignment u := alignment_pos u
    have hb : d3d11BufferSizeAlignment u ≤ 256 := alignment_le u
    have h256 : (256 : Nat) ≤ uint64Max := by decide
    have hval : validationUsage u = none := by
      unfold validationUsage
      have hfalse : (u.uniform && u.storage) = false := by
        cases h1 : u.uniform <;> cases h2 : u.storage <;> simp_all
      simp [hfalse]
    refine ⟨rfl, ?_, ?_⟩
    · intro hover
      have hcond : uint64Max - d3d11BufferSizeAlignment u < max n 4 := by omega
      simp [bufferAllocSize, hval, hcond]
    · intro hok
      have hcond : ¬(uint64Max - d3d11BufferSizeAlignment u < max n 4) := by omega
      refine ⟨?_, alignUp_dvd _ _, le_alignUp _ _ ha, alignUp_lt _ _ ha⟩
      simp [bufferAllocSize, hval, hcond]

/-- C5 witness: uniform+storage usage is rejected, and a uniform buffer of
requested size 260 is allocated at 512 bytes, a 256-byte multiple at most 256
bytes above the clamped size. -/
theorem c5_witness :
    bufferAllocSize uniformStorageUsage 10 = Except.error DawnError.validation
  ∧ (bufferAllocSize uniformUsage 260 =
        Except.ok (alignUp (max 260 4) (d3d11BufferSizeAlignment uniformUsage))
     ∧ d3d11BufferSizeAlignment uniformUsage ∣
         alignUp (max 260 4) (d3d11BufferSizeAlignment uniformUsage)
     ∧ max 260 4 ≤ alignUp (max 260 4) (d3d11BufferSizeAlignment uniformUsage)
     ∧ alignUp (max 260 4) (d3d11BufferSizeAlignment uniformUsage)
         < max 260 4 + d3d11BufferSizeAlignment uniformUsage) :=
  ⟨(c5_buffer_alloc uniformStorageUsage 10).1 rfl rfl,
   ((c5_buffer_alloc uniformUsage 260).2 (by decide)).2.2 (by decide)⟩

/-- C7: with a live previous swapchain on the same device and backend, the
initialization outcome is exactly: drain then rebuild from scratch when the
ALLOW_TEARING flag differs (i.e. exactly one of the present modes is
Immediate); adopt the previous native swapchain object, drain, resize the
buffers in place and re-fetch the buffer when the tearing flag matches but
width, height, format, or present mode changed; and adopt both the native
swapchain object and the previous buffer, with no drain, resize, or recreate
call, exactly when width, height, format, and present mode are all unchanged. -/
theorem c7_swapchain_reuse (cur : SwapChainParams) (p : PreviousSwapChain)
    (hb : p.backendIsD3D11 = true) (hd : p.sameDevice = true) :
    (¬((cur.presentMode = PresentMode.immediate) ↔
        (p.params.presentMode = PresentMode.immediate)) →
      swapChainInit cur (some p) =
        Except.ok [SwapChainAction.drainPrevious, SwapChainAction.createFromScratch])
  ∧ (((cur.presentMode = PresentMode.immediate) ↔
        (p.params.presentMode = PresentMode.immediate)) →
      ¬(cur.width = p.params.width ∧ cur.height = p.params.height ∧
        cur.format = p.params.format ∧ cur.presentMode = p.params.presentMode) →
      swapChainInit cur (some p) =
        Except.ok [SwapChainAction.adoptSwapChain, SwapChainAction.drainPrevious,
                   SwapChainAction.resizeBuffers, SwapChainAction.getBuffer])
  ∧ ((cur.width = p.params.width ∧ cur.height = p.params.height ∧
      cur.format = p.params.format ∧ cur.presentMode = p.params.presentMode) →
      swapChainInit cur (some p) =
        Except.ok [SwapChainAction.adoptSwapChain, SwapChainAction.adoptBuffer]) := by
  have hflag : ∀ a b : PresentMode,
      ((presentModeToSwapChainFlags a ^^^ presentModeToSwapChainFlags b) &&&
        allowTearingFlag ≠ 0) ↔
      ¬((a = PresentMode.immediate) ↔ (b = PresentMode.immediate)) := by
    intro a b
    cases a <;> cases b <;> decide
  refine ⟨?_, ?_, ?_⟩
  · intro hmismatch
    simp only [swapChainInit]
    rw [if_neg (by simp [hb]), if_neg (by simp [hd]),
        if_pos ((hflag cur.presentMode p.params.presentMode).mpr hmismatch)]
  · intro hmatch hdiff
    simp only [swapChainInit]
    rw [if_neg (by simp [hb]), if_neg (by simp [hd]),
        if_neg (fun hc => ((hflag cur.presentMode p.params.presentMode).mp hc) hmatch),
        if_neg hdiff]
  · intro hsame
    have hmatch : (cur.presentMode = PresentMode.immediate) ↔
        (p.params.presentMode = PresentMode.immediate) := by
      rw [hsame.2.2.2]
    simp only [swapChainInit]
    rw [if_neg (by simp [hb]), if_neg (by simp [hd]),
        if_neg (fun hc => ((hflag cur.presentMode p.params.presentMode).mp hc) hmatch),
        if_pos hsame]

/-- C7 witness: an identical 640 x 480 FIFO swapchain over the live previous
one on the same device reuses both the native swapchain object and the buffer
with no drain, resize, or recreate; growing the width to 800 keeps the object
but drains and resizes; switching to Immediate (tearing flag change) drains
and rebuilds from scratch. -/
theorem c7_witness :
    swapChainInit scParams1 (some scPrev1) =
      Except.ok [SwapChainAction.adoptSwapChain, SwapChainAction.adoptBuffer]
  ∧ swapChainInit { scParams1 with width := 800 } (some scPrev1) =
      Except.ok [SwapChainAction.adoptSwapChain, SwapChainAction.drainPrevious,
                 SwapChainAction.resizeBuffers, SwapChainAction.getBuffer]
  ∧ swapChainInit { scParams1 with presentMode := PresentMode.immediate } (some scPrev1) =
      Except.ok [SwapChainAction.drainPrevious, SwapChainAction.createFromScratch] :=
  ⟨(c7_swapchain_reuse scParams1 scPrev1 rfl rfl).2.2 (by decide),
   (c7_swapchain_reuse { scParams1 with width := 800 } scPrev1 rfl rfl).2.1
     (by decide) (by decide),
   (c7_swapchain_reuse { scParams1 with presentMode := PresentMode.immediate } scPrev1
     rfl rfl).1 (by decide)⟩

/-- C1 counterexample: cbuf300 is an uninitialized GPU-resident uniform buffer
whose allocated size (512) differs from its logical size (300); for the
non-covering range (0, 4) the claim demands a full zero-fill returning true,
but EnsureDataInitializedAsDestination instead fails with a Validation error
(the zero-fill is routed through the uniform whole-buffer write check). -/
theorem c1_counterexample :
    cbuf300.dataInit = false
  ∧ cbuf300.isFullBufferRange 0 4 = false
  ∧ cbuf300.ensureDataInitAsDest 0 4 = ([], Except.error DawnError.validation) :=
  ⟨rfl, rfl, rfl⟩

/-- C1 (amended): for an uninitialized buffer, a destination range covering the
whole buffer marks it initialized with no zero-fill and returns false; a
non-covering range zero-fills the whole allocated range and returns true —
except for a GPU-resident uniform buffer whose allocated size differs from its
logical size, where the zero-fill attempt fails with a Validation error; and a
write of the exact full range succeeds with a single native update (none for
staging buffers), after which the buffer is initialized and every byte of the
logical range reads back as the written data. -/
theorem c1_full_coverage_skips_zero_fill (b : Buffer) (data : Nat → Nat) (offset size : Nat)
    (hb : b.dataInit = false) (hpos : 0 < b.allocatedSize) :
    b.ensureDataInitAsDest 0 b.size = ([], Except.ok ({ b with dataInit := true }, false))
  ∧ (¬(offset = 0 ∧ size = b.size) →
      (b.hasD3d11Buffer = true → b.usage.uniform = true → b.allocatedSize ≠ b.size →
        b.ensureDataInitAsDest offset size = ([], Except.error DawnError.validation))
      ∧ (¬(b.hasD3d11Buffer = true ∧ b.usage.uniform = true ∧ b.allocatedSize ≠ b.size) →
        b.ensureDataInitAsDest offset size =
          ((if b.hasD3d11Buffer then [NativeOp.updateSub b.usage.uniform 0 b.allocatedSize]
            else []),
           Except.ok ({ b with contents := fillRange b.contents 0 0 b.allocatedSize,
                               dataInit := true }, true))))
  ∧ (0 < b.size →
      b.writeBuffer 0 data b.size =
        ((if b.hasD3d11Buffer then [NativeOp.updateSub b.usage.uniform 0 b.size] else []),
         Except.ok { b with contents := writeRange b.contents 0 data b.size,
                            dataInit := true }))
  ∧ (∀ i, i < b.size → writeRange b.contents 0 data b.size i = data i) := by
  refine ⟨ensureDest_full b hb, ?_, ?_, fun i hi => writeRange_lt b.contents data b.size i hi⟩
  · intro hp
    have hful := notFull_isFullBufferRange b offset size hp
    constructor
    · intro hg hu hne
      simp [Buffer.ensureDataInitAsDest, Buffer.needsInit, hb, hful,
            initToZero_gpu_uniform_mismatch b hg hu (by omega) hne]
    · intro hns
      cases hg : b.hasD3d11Buffer with
      | false =>
        simp [Buffer.ensureDataInitAsDest, Buffer.needsInit, hb, hful,
              initToZero_staging b hg, hg]
      | true =>
        have hok : b.usage.uniform = true → b.allocatedSize = b.size := by
          intro hu
          by_contra hne
          exact hns ⟨hg, hu, hne⟩
        simp [Buffer.ensureDataInitAsDest, Buffer.needsInit, hb, hful,
              initToZero_gpu b hg (by omega) hok, hg]
  · intro hsz
    have hz : b.size ≠ 0 := by omega
    cases hg : b.hasD3d11Buffer with
    | false =>
      simp [Buffer.writeBuffer, ensureDest_full b hb, Buffer.writeBufferInternal, hz, hg]
    | true =>
      cases hu : b.usage.uniform with
      | false =>
        simp [Buffer.writeBuffer, ensureDest_full b hb, Buffer.writeBufferInternal, hz, hg, hu]
      | true =>
        simp [Buffer.writeBuffer, ensureDest_full b hb, Buffer.writeBufferInternal, hz, hg, hu]

/-- C1 witness: for the uninitialized GPU vertex buffer vbuf8, a full-range
destination skips the zero-fill and marks it initialized, a full-range write
issues the single user update, and bytes 0..7 read back as the written data. -/
theorem c1_witness :
    vbuf8.ensureDataInitAsDest 0 vbuf8.size =
      ([], Except.ok ({ vbuf8 with dataInit := true }, false))
  ∧ vbuf8.writeBuffer 0 (fun i => i + 10) vbuf8.size =
      ([NativeOp.updateSub false 0 vbuf8.size],
       Except.ok { vbuf8 with contents := writeRange vbuf8.contents 0 (fun i => i + 10) vbuf8.size,
                              dataInit := true })
  ∧ writeRange vbuf8.contents 0 (fun i => i + 10) vbuf8.size 3 = 13 :=
  ⟨(c1_full_coverage_skips_zero_fill vbuf8 (fun i => i + 10) 1 3 rfl (by decide)).1,
   (c1_full_coverage_skips_zero_fill vbuf8 (fun i => i + 10) 1 3 rfl (by decide)).2.2.1
     (by decide),
   (c1_full_coverage_skips_zero_fill vbuf8 (fun i => i + 10) 1 3 rfl (by decide)).2.2.2 3
     (by decide)⟩

/-- C2 counterexample: ubuf256 is an uninitialized GPU-resident uniform buffer
of size 256 = allocated size; the partial write (offset 16, size 240) does fail
with a Validation error, but only after the lazy zero-fill has issued a native
full-buffer UpdateSubresource, contradicting the claim that no native update is
performed. -/
theorem c2_counterexample :
    ubuf256.usage.uniform = true
  ∧ ubuf256.dataInit = false
  ∧ ubuf256.writeBuffer 16 (fun _ => 1) 240 =
      ([NativeOp.updateSub true 0 256], Except.error DawnError.validation) :=
  ⟨rfl, rfl, rfl⟩

/-- C2 (amended): on a GPU-resident uniform buffer, WriteBuffer and ClearBuffer
with a nonzero size whose range is not exactly (0, bufferSize) fail with a
Validation error and issue no native update carrying the caller's data — the
trace is empty except that, when the buffer was uninitialized, a single
full-buffer zero-fill UpdateSubresource may precede the failure; whole-buffer
writes and clears (offset 0, size = bufferSize) succeed. -/
theorem c2_uniform_partial_write_rejected (b : Buffer) (data : Nat → Nat) (offset size : Nat)
    (hu : b.usage.uniform = true) (hg : b.hasD3d11Buffer = true)
    (hs : size ≠ 0) (hp : ¬(offset = 0 ∧ size = b.size)) (hpos : 0 < b.allocatedSize) :
    ((b.writeBuffer offset data size).2 = Except.error DawnError.validation
     ∧ ((b.writeBuffer offset data size).1 = []
        ∨ (b.dataInit = false ∧ b.allocatedSize = b.size
           ∧ (b.writeBuffer offset data size).1 = [NativeOp.updateSub true 0 b.allocatedSize])))
  ∧ ((b.clearBuffer 0 offset size).2 = Except.error DawnError.validation
     ∧ ((b.clearBuffer 0 offset size).1 = []
        ∨ (b.dataInit = false ∧ b.allocatedSize = b.size
           ∧ (b.clearBuffer 0 offset size).1 = [NativeOp.updateSub true 0 b.allocatedSize])))
  ∧ isOkResult (b.writeBuffer 0 data b.size).2 = true
  ∧ isOkResult (b.clearBuffer 0 0 b.size).2 = true := by
  have hor : offset ≠ 0 ∨ size ≠ b.size := by omega
  have hful := notFull_isFullBufferRange b offset size hp
  refine ⟨?_, ?_, ?_, ?_⟩
  · cases hinit : b.dataInit with
    | true =>
      have hwb : b.writeBuffer offset data size = ([], Except.error DawnError.validation) := by
        simp [Buffer.writeBuffer, ensureDest_done b hinit, Buffer.writeBufferInternal,
              hs, hg, hu, hor]
      simp [hwb]
    | false =>
      by_cases heq : b.allocatedSize = b.size
      · have hwb : b.writeBuffer offset data size =
            ([NativeOp.updateSub true 0 b.allocatedSize], Except.error DawnError.validation) := by
          simp [Buffer.writeBuffer, Buffer.ensureDataInitAsDest, Buffer.needsInit, hinit, hful,
                initToZero_gpu b hg (by omega) (fun _ => heq), hs,
                Buffer.writeBufferInternal, hg, hu, hor]
        simp [hwb, hinit, heq]
      · have hwb : b.writeBuffer offset data size = ([], Except.error DawnError.validation) := by
          simp [Buffer.writeBuffer, Buffer.ensureDataInitAsDest, Buffer.needsInit, hinit, hful,
                initToZero_gpu_uniform_mismatch b hg hu (by omega) heq, hs]
        simp [hwb]
  · cases hinit : b.dataInit with
    | true =>
      have hwb : b.clearBuffer 0 offset size = ([], Except.error DawnError.validation) := by
        simp [Buffer.clearBuffer, ensureDest_done b hinit, Buffer.clearBufferInternal,
              Buffer.writeBufferInternal, hs, hg, hu, hor]
      simp [hwb]
    | false =>
      by_cases heq : b.allocatedSize = b.size
      · have hwb : b.clearBuffer 0 offset size =
            ([NativeOp.updateSub true 0 b.allocatedSize], Except.error DawnError.validation) := by
          simp [Buffer.clearBuffer, Buffer.ensureDataInitAsDest, Buffer.needsInit, hinit, hful,
                initToZero_gpu b hg (by omega) (fun _ => heq), hs,
                Buffer.clearBufferInternal, Buffer.writeBufferInternal, hg, hu, hor]
        simp [hwb, hinit, heq]
      · have hwb : b.clearBuffer 0 offset size = ([], Except.error DawnError.validation) := by
          simp [Buffer.clearBuffer, Buffer.ensureDataInitAsDest, Buffer.needsInit, hinit, hful,
                initToZero_gpu_uniform_mismatch b hg hu (by omega) heq, hs]
        simp [hwb]
  · by_cases hz : b.size = 0
    · simp [Buffer.writeBuffer, hz, isOkResult]
    · cases hinit : b.dataInit with
      | true =>
        simp [Buffer.writeBuffer, ensureDest_done b hinit, Buffer.writeBufferInternal,
              hz, hg, hu, isOkResult]
      | false =>
        have hb0 : b.dataInit = false := hinit
        simp [Buffer.writeBuffer, ensureDest_full b hb0, Buffer.writeBufferInternal,
              hz, hg, hu, isOkResult]
  · by_cases hz : b.size = 0
    · simp [Buffer.clearBuffer, hz, isOkResult]
    · cases hinit : b.dataInit with
      | true =>
        simp [Buffer.clearBuffer, ensureDest_done b hinit, Buffer.clearBufferInternal,
              Buffer.writeBufferInternal, hz, hg, hu, isOkResult]
      | false =>
        have hb0 : b.dataInit = false := hinit
        simp [Buffer.clearBuffer, ensureDest_full b hb0, Buffer.clearBufferInternal,
              Buffer.writeBufferInternal, hz, hg, hu, isOkResult]

/-- C2 witness: on the initialized uniform buffer ubufInit, the partial write
(offset 4, size 8) and partial clear fail with Validation and an empty native
trace, while the whole-buffer write and clear succeed. -/
theorem c2_witness :
    ((ubufInit.writeBuffer 4 (fun _ => 1) 8).2 = Except.error DawnError.validation
     ∧ ((ubufInit.writeBuffer 4 (fun _ => 1) 8).1 = []
        ∨ (ubufInit.dataInit = false ∧ ubufInit.allocatedSize = ubufInit.size
           ∧ (ubufInit.writeBuffer 4 (fun _ => 1) 8).1 =
               [NativeOp.updateSub true 0 ubufInit.allocatedSize])))
  ∧ ((ubufInit.clearBuffer 0 4 8).2 = Except.error DawnError.validation
     ∧ ((ubufInit.clearBuffer 0 4 8).1 = []
        ∨ (ubufInit.dataInit = false ∧ ubufInit.allocatedSize = ubufInit.size
           ∧ (ubufInit.clearBuffer 0 4 8).1 =
               [NativeOp.updateSub true 0 ubufInit.allocatedSize])))
  ∧ isOkResult (ubufInit.writeBuffer 0 (fun _ => 1) ubufInit.size).2 = true
  ∧ isOkResult (ubufInit.clearBuffer 0 0 ubufInit.size).2 = true :=
  c2_uniform_partial_write_rejected ubufInit (fun _ => 1) 4 8 rfl rfl (by decide)
    (by decide) (by decide)

/-- C4: after a Dispatch or DispatchIndirect step of the compute-pass executor,
BindGroupTracker::AfterDispatch has run as part of the same step: the
null-setting CSSetUnorderedAccessViews calls for exactly the recorded slots
appear in the step's trace after the native dispatch call (hence before any
later bind-group application), the recorded list is emptied, and every slot
that was bound for that dispatch maps to null afterwards. -/
theorem c4_uav_unbound_after_dispatch (s s1 : ComputeState) (t1 : List ComputeCall)
    (x y z bufId off : Nat) (h : trackerApply s = Except.ok (s1, t1)) :
    execComputeCmd s (ComputeCmd.dispatchWork x y z) = Except.ok
        ({ s1 with recordedUAVs := [], uavSlots := clearUAVs s1.recordedUAVs s1.uavSlots },
         t1 ++ [ComputeCall.recordWorkgroups x y z, ComputeCall.dispatchCall x y z]
            ++ s1.recordedUAVs.map (fun slot => ComputeCall.csSetUAV slot none))
  ∧ execComputeCmd s (ComputeCmd.dispatchIndirect bufId off) = Except.ok
        ({ s1 with recordedUAVs := [], uavSlots := clearUAVs s1.recordedUAVs s1.uavSlots },
         t1 ++ [ComputeCall.dispatchIndirectCall bufId off]
            ++ s1.recordedUAVs.map (fun slot => ComputeCall.csSetUAV slot none))
  ∧ (∀ slot, slot ∈ s1.recordedUAVs → clearUAVs s1.recordedUAVs s1.uavSlots slot = none) := by
  refine ⟨?_, ?_, ?_⟩
  · simp [execComputeCmd, h, afterDispatch]
  · simp [execComputeCmd, h, afterDispatch]
  · intro slot hmem
    rw [clearUAVs_eq]
    simp [hmem]

/-- C4 witness: in state csW (slot 1 recorded from an earlier apply, a dirty
group binding a compute storage buffer at slot 3), the dispatch step applies
the group, dispatches, then nulls slots 1 and 3; afterwards slot 3 maps to
null. -/
theorem c4_witness :
    execComputeCmd csW (ComputeCmd.dispatchWork 1 1 1) = Except.ok
        ({ csW1 with recordedUAVs := [], uavSlots := clearUAVs csW1.recordedUAVs csW1.uavSlots },
         [ComputeCall.csSetUAV 3 (some 9)]
            ++ [ComputeCall.recordWorkgroups 1 1 1, ComputeCall.dispatchCall 1 1 1]
            ++ csW1.recordedUAVs.map (fun slot => ComputeCall.csSetUAV slot none))
  ∧ clearUAVs csW1.recordedUAVs csW1.uavSlots 3 = none :=
  ⟨(c4_uav_unbound_after_dispatch csW csW1 [ComputeCall.csSetUAV 3 (some 9)]
      1 1 1 0 0 rfl).1,
   (c4_uav_unbound_after_dispatch csW csW1 [ComputeCall.csSetUAV 3 (some 9)]
      1 1 1 0 0 rfl).2.2 3 (by decide)⟩

/-- C9: size-0 WriteBuffer, ClearBuffer, and CopyFromBuffer succeed with no
native call and the buffer (contents and initialization flag) unchanged, and
the executor skips the CopyBufferToBuffer command with size 0 and the
CopyBufferToTexture / CopyTextureToBuffer commands whose extent has any zero
dimension, with no native call and no error. -/
theorem c9_zero_size_noop (b src : Buffer)
    (offset srcOffset v dstOffset bytesPerRow rowPitch : Nat)
    (data tex : Nat → Nat) (e : Extent3D)
    (he : e.width = 0 ∨ e.height = 0 ∨ e.depthOrArrayLayers = 0) :
    b.writeBuffer offset data 0 = ([], Except.ok b)
  ∧ b.clearBuffer v offset 0 = ([], Except.ok b)
  ∧ b.copyFromBuffer offset 0 src srcOffset = ([], Except.ok (b, src))
  ∧ execCopyBufferToBuffer src b srcOffset offset 0 = ([], Except.ok (src, b))
  ∧ execCopyBufferToTexture e = ([], Except.ok ())
  ∧ execCopyTextureToBuffer b e dstOffset bytesPerRow rowPitch tex = ([], Except.ok b) := by
  refine ⟨rfl, rfl, rfl, rfl, ?_, ?_⟩
  · unfold execCopyBufferToTexture
    rw [if_pos he]
  · unfold execCopyTextureToBuffer
    rw [if_pos he]

/-- C9 witness: instantiated on vbuf8 and ubufInit with a (0, 5, 5) extent. -/
theorem c9_witness :
    vbuf8.writeBuffer 4 (fun _ => 1) 0 = ([], Except.ok vbuf8)
  ∧ vbuf8.clearBuffer 7 4 0 = ([], Except.ok vbuf8)
  ∧ vbuf8.copyFromBuffer 4 0 ubufInit 2 = ([], Except.ok (vbuf8, ubufInit))
  ∧ execCopyBufferToBuffer ubufInit vbuf8 2 4 0 = ([], Except.ok (ubufInit, vbuf8))
  ∧ execCopyBufferToTexture { width := 0, height := 5, depthOrArrayLayers := 5 } =
      ([], Except.ok ())
  ∧ execCopyTextureToBuffer vbuf8 { width := 0, height := 5, depthOrArrayLayers := 5 }
      0 16 16 (fun _ => 0) = ([], Except.ok vbuf8) :=
  c9_zero_size_noop vbuf8 ubufInit 4 2 7 0 16 16 (fun _ => 1) (fun _ => 0)
    { width := 0, height := 5, depthOrArrayLayers := 5 } (Or.inl rfl)

end DawnD3D11
